import Mathlib

/-!
Verification of the l02 two-service weather-by-CEP system.

Shallow embedding of the Go sources:
- `src/app1/main.go`           : Edge Service (`/weather-by-cep` handler)
- `src/app2/weatherapi/...`    : Weather Resolver client (`FindTemperatureByCity`,
                                 `redactingTransport.RoundTrip`)
- viacep package               : Address Resolver client (`FindAddressByCep`)
- orchestrator `main.go`       : Orchestrator Service (`/get-weather-by-cep` handler)

Modelling conventions:
- Go `float64` values are embedded as `ℚ` (all numeric behaviour the spec
  cares about is exact decimal arithmetic: the Kelvin offset 273.15).
- An outbound HTTP exchange is embedded as the value the client code
  inspects: either a transport error or a `(statusCode, body)` pair, with
  the body either undecodable or an already-decoded payload.
- Go errors compared by identity (`err == viacep.ErrCepNotFound`) become
  inductive error types with decidable equality; the two client packages
  have distinct error types, mirroring the distinct Go sentinel values.
-/

/-- The compiled regular expression `^[0-9]{5}-[0-9]{3}$`
(`regextCepPattern` in both services): exactly five ASCII digits,
a hyphen, then exactly three ASCII digits, anchored at both ends. -/
def cepRegexMatch (s : String) : Bool :=
  match s.data with
  | [a, b, c, d, e, h, x, y, z] =>
      a.isDigit && b.isDigit && c.isDigit && d.isDigit && e.isDigit &&
      h == '-' && x.isDigit && y.isDigit && z.isDigit
  | _ => false

namespace viacep

/-- `viacep.ViaCepResponse`: `{cep, logradouro, localidade, uf, erro}`. -/
structure ViaCepResponse where
  Cep : String
  Street : String
  City : String
  State : String
  Erro : Bool
  deriving Repr, DecidableEq

/-- The errors `FindAddressByCep` can return: the sentinel
`ErrCepNotFound`, the sentinel `ErrInternal`, or the raw error from
`http.NewRequestWithContext` (carried with its message). -/
inductive Error where
  | cepNotFound
  | internal
  | requestCreation (msg : String)
  deriving Repr, DecidableEq

/-- What the upstream ViaCEP exchange yields to the client code:
either a transport-level failure of `httpClient.Do`, or a response
with a status code and a body that the JSON decoder either rejects
or decodes into a `ViaCepResponse`. -/
inductive Upstream where
  | transportError
  | reply (statusCode : Nat) (body : Option ViaCepResponse)
  deriving Repr, DecidableEq

/-- `(c *Client) FindAddressByCep`, as a function of the upstream
exchange outcome:
transport error → `ErrInternal`; status ≠ 200 → `ErrCepNotFound`;
decode failure → `ErrInternal`; decoded payload with `Erro` set →
`ErrCepNotFound`; otherwise the decoded address. -/
def FindAddressByCep (upstream : Upstream) : Except Error ViaCepResponse :=
  match upstream with
  | .transportError => .error .internal
  | .reply statusCode body =>
      if statusCode ≠ 200 then
        .error .cepNotFound
      else
        match body with
        | none => .error .internal
        | some data =>
            if data.Erro then .error .cepNotFound
            else .ok data

end viacep

namespace weatherapi

/-- `weatherapi.CurrentWeather`: `{temp_c, temp_f}`. -/
structure CurrentWeather where
  TempC : ℚ
  TempF : ℚ
  deriving Repr, DecidableEq

/-- `weatherapi.WeatherApiResponse`: `{current, erro}`. The `erro`
field is declared with a JSON tag and decoded, like the ViaCEP one. -/
structure WeatherApiResponse where
  Current : CurrentWeather
  Erro : Bool
  deriving Repr, DecidableEq

/-- The errors `FindTemperatureByCity` can return. -/
inductive Error where
  | cityNotFound
  | internal
  | requestCreation (msg : String)
  deriving Repr, DecidableEq

/-- Upstream WeatherAPI exchange outcome, seen by the client code. -/
inductive Upstream where
  | transportError
  | reply (statusCode : Nat) (body : Option WeatherApiResponse)
  deriving Repr, DecidableEq

/-- `(c *Client) FindTemperatureByCity`, as a function of the upstream
exchange outcome: transport error → `ErrInternal`; status ≠ 200 →
`ErrCityNotFound`; decode failure → `ErrInternal`; otherwise the
decoded payload is returned as a success — the decoded `Erro` field is
never inspected on this path. -/
def FindTemperatureByCity (upstream : Upstream) : Except Error WeatherApiResponse :=
  match upstream with
  | .transportError => .error .internal
  | .reply statusCode body =>
      if statusCode ≠ 200 then
        .error .cityNotFound
      else
        match body with
        | none => .error .internal
        | some data => .ok data

end weatherapi

/-!
JSON values and the shared success-response shape. `app1.Response` and the
orchestrator's `response` struct are field-for-field identical —
`{City "city", TempC "temp_C", TempF "temp_F", TempK "temp_K"}` — so one
structure embeds both. Encoding follows `encoding/json` on these structs:
an object whose keys appear in struct-field order.
-/

/-- `Response` (app1) / `response` (orchestrator): the unified weather
response, `{"city", "temp_C", "temp_F", "temp_K"}`. -/
structure Response where
  City : String
  TempC : ℚ
  TempF : ℚ
  TempK : ℚ
  deriving Repr, DecidableEq

/-- A JSON value, as far as this system's payloads need. -/
inductive Json where
  | str (s : String)
  | num (q : ℚ)
  | obj (fields : List (String × Json))

/-- `json.NewEncoder(w).Encode` on a `Response`/`response` value: an object
with the four tagged fields in struct order. -/
def encodeResponse (r : Response) : Json :=
  .obj [("city", .str r.City), ("temp_C", .num r.TempC),
        ("temp_F", .num r.TempF), ("temp_K", .num r.TempK)]

/-- `encoding/json` decoding of one string-typed struct field: a missing
key leaves the zero value, a present key must hold a string. -/
def decodeStrField (fields : List (String × Json)) (k : String) : Option String :=
  match fields.lookup k with
  | none => some ""
  | some (.str s) => some s
  | some _ => none

/-- `encoding/json` decoding of one float64-typed struct field: a missing
key leaves the zero value, a present key must hold a number. -/
def decodeNumField (fields : List (String × Json)) (k : String) : Option ℚ :=
  match fields.lookup k with
  | none => some 0
  | some (.num q) => some q
  | some _ => none

/-- `json.NewDecoder(body).Decode(&resp)` for a `Response`: the value must
be an object; unknown keys are ignored; each tagged field decodes by
`decodeStrField`/`decodeNumField`. -/
def decodeResponse (j : Json) : Option Response :=
  match j with
  | .obj fields =>
      match decodeStrField fields "city", decodeNumField fields "temp_C",
            decodeNumField fields "temp_F", decodeNumField fields "temp_K" with
      | some city, some tc, some tf, some tk =>
          some { City := city, TempC := tc, TempF := tf, TempK := tk }
      | _, _, _, _ => none
  | _ => none

/-- A handler-written HTTP body: either `http.Error` text or an encoded
JSON value. -/
inductive HttpBody where
  | text (s : String)
  | json (j : Json)

/-- What a handler writes: status code and body. -/
structure HttpResponse where
  status : Nat
  body : HttpBody

namespace app2

/-- Observable downstream invocations made by the orchestrator handler
within one request, in order. -/
inductive Event where
  | calledFindAddressByCep (cep : String)
  | calledFindTemperatureByCity (city : String)
  deriving Repr, DecidableEq

/-- `InternalErrorMessage` in the orchestrator `main.go`. -/
def InternalErrorMessage : String := "ocorreu um erro ao processar sua requisição"

/-- `viacep.ErrCepNotFound.Error()`, the body of the orchestrator's 404. -/
def errCepNotFoundMessage : String := "CEP não encontrado"

/-- The post-validation stage of the orchestrator handler: resolve the
address, fail fast on its error (`== viacep.ErrCepNotFound` → 404 with its
message, anything else → 500 with the fixed generic message), then resolve
the weather for `address.City` (any error → 500 with the fixed generic
message), then compose the unified response with `TempK = TempC + 273.15`.
The clients are the `ViaCepClient`/`WeatherApiClient` interface seams. -/
def handlerProcess (cep : String)
    (viaCepClient : String → Except viacep.Error viacep.ViaCepResponse)
    (weatherApiClient : String → Except weatherapi.Error weatherapi.WeatherApiResponse) :
    HttpResponse × List Event :=
  match viaCepClient cep with
  | .error e =>
      if e = viacep.Error.cepNotFound then
        ({ status := 404, body := .text errCepNotFoundMessage },
         [.calledFindAddressByCep cep])
      else
        ({ status := 500, body := .text InternalErrorMessage },
         [.calledFindAddressByCep cep])
  | .ok address =>
      match weatherApiClient address.City with
      | .error _ =>
          ({ status := 500, body := .text InternalErrorMessage },
           [.calledFindAddressByCep cep, .calledFindTemperatureByCity address.City])
      | .ok weather =>
          ({ status := 200,
             body := .json (encodeResponse
               { City := address.City
                 TempC := weather.Current.TempC
                 TempF := weather.Current.TempF
                 TempK := weather.Current.TempC + 273.15 }) },
           [.calledFindAddressByCep cep, .calledFindTemperatureByCity address.City])

/-- `(app *application) handler` of the orchestrator
(`GET /get-weather-by-cep`), as a function of the `cep` query parameter
(`Query().Get` yields `""` when absent) and the two client seams. Returns
the written response and the ordered list of downstream invocations. -/
def handler (cep : String)
    (viaCepClient : String → Except viacep.Error viacep.ViaCepResponse)
    (weatherApiClient : String → Except weatherapi.Error weatherapi.WeatherApiResponse) :
    HttpResponse × List Event :=
  if cep = "" then
    ({ status := 400, body := .text "parâmetro 'cep' é obrigatório" }, [])
  else if ¬ cepRegexMatch cep then
    ({ status := 422, body := .text "inválid zipcode" }, [])
  else
    handlerProcess cep viaCepClient weatherApiClient

end app2

namespace app1

/-- `app1.Request`: the decoded POST body `{"cep": ...}`. -/
structure Request where
  Cep : String
  deriving Repr, DecidableEq

/-- The Edge → Orchestrator exchange, seen by the edge handler:
request-creation failure, transport/timeout failure of `httpClient.Do`
(whose `err.Error()` text becomes the 500 body), or a reply carrying a
status code and a body that either fails JSON decoding (with the decode
error's text) or parses as a JSON value. -/
inductive Downstream where
  | requestCreationError
  | transportError (errText : String)
  | reply (statusCode : Nat) (body : Except String Json)

/-- Stand-in for the JSON library's `err.Error()` text when a 2xx body
parses as JSON but does not decode into `Response`; its exact text is
library-internal and unobserved. -/
def jsonDecodeMismatchText : String := "json: cannot unmarshal"

/-- The post-validation stage of the edge handler: forward to the
Orchestrator and translate its outcome. Transport failure → 500 with the
error text; downstream 404 → own 404 "can not find zipcode"; any other
downstream status ≥ 400 → that same status with the fixed upstream-error
message; otherwise decode the body into `Response` and re-encode it as
the 200 body. -/
def forward (downstream : Downstream) : HttpResponse :=
  match downstream with
  | .requestCreationError =>
      { status := 500, body := .text "fail create request to orchestrator service" }
  | .transportError errText =>
      { status := 500, body := .text errText }
  | .reply statusCode body =>
      if statusCode = 404 then
        { status := 404, body := .text "can not find zipcode" }
      else if statusCode ≥ 400 then
        { status := statusCode, body := .text "error on find weather in orchestrator service" }
      else
        match body with
        | .error errText => { status := 500, body := .text errText }
        | .ok j =>
            match decodeResponse j with
            | none => { status := 500, body := .text jsonDecodeMismatchText }
            | some resp => { status := 200, body := .json (encodeResponse resp) }

/-- `(app *application) handler` of the Edge Service
(`POST /weather-by-cep`), as a function of the decoded request body
(`.error errText` when `json.Decode` fails, with `err.Error()` as the 400
body) and the downstream exchange. -/
def handler (requestBody : Except String Request) (downstream : Downstream) :
    HttpResponse :=
  match requestBody with
  | .error errText => { status := 400, body := .text errText }
  | .ok req =>
      if req.Cep = "" then
        { status := 400, body := .text "param 'cep' is required" }
      else if ¬ cepRegexMatch req.Cep then
        { status := 422, body := .text "invalid zipcode" }
      else
        forward downstream

end app1

namespace weatherapi

/-- An outbound request URL: the scheme/host/path portion and the query
parameters (as `url.Values` holds them; keys are unique). -/
structure URL where
  base : String
  query : List (String × String)
  deriving Repr, DecidableEq

/-- `url.Values.Get`: first value for the key, `""` when absent. -/
def valuesGet (q : List (String × String)) (k : String) : String :=
  match q.lookup k with
  | some v => v
  | none => ""

/-- `url.Values.Set`: replace the key's entry with the single value. -/
def valuesSet (q : List (String × String)) (k v : String) :
    List (String × String) :=
  (k, v) :: q.filter (fun p => p.1 ≠ k)

/-- Insertion step for `queryEncode`'s key sort. -/
def insertByKey (p : String × String) :
    List (String × String) → List (String × String)
  | [] => [p]
  | q :: rest =>
      if p.1 ≤ q.1 then p :: q :: rest else q :: insertByKey p rest

/-- Sort query parameters by key, as `url.Values.Encode` does. -/
def sortByKey (l : List (String × String)) : List (String × String) :=
  l.foldr insertByKey []

/-- `url.Values.Encode`: keys sorted, joined as `k=v&k=v` (values modelled
verbatim; percent-escaping is injective and unobserved by the claims). -/
def queryEncode (q : List (String × String)) : String :=
  String.intercalate "&" ((sortByKey q).map fun p => p.1 ++ "=" ++ p.2)

/-- `url.URL.String`: base, then `?` and the encoded query when present. -/
def urlString (u : URL) : String :=
  if u.query = [] then u.base else u.base ++ "?" ++ queryEncode u.query

/-- The fixed mask token the redacting transport substitutes for the
credential. -/
def maskToken : String := "***"

/-- `(t *redactingTransport) RoundTrip`: when the `key` query parameter is
non-empty, record the URL with `key` replaced by `"***"` under both the
`http.url` and `url.full` span-attribute keys; in every case forward the
ORIGINAL request unchanged to the base transport. Returns the recorded
span attributes and the forwarded request URL. -/
def redactingRoundTrip (reqURL : URL) : List (String × String) × URL :=
  if valuesGet reqURL.query "key" ≠ "" then
    let sanitizedURL : URL :=
      { reqURL with query := valuesSet reqURL.query "key" maskToken }
    let sanitizedURLString := urlString sanitizedURL
    ([("http.url", sanitizedURLString), ("url.full", sanitizedURLString)],
     reqURL)
  else
    ([], reqURL)

/-- The URL `FindTemperatureByCity` builds:
`{baseURL}/current.json` with query parameters `key={apiKey}`, `q={city}`. -/
def weatherRequestURL (baseURL apiKey city : String) : URL :=
  { base := baseURL ++ "/current.json", query := [("key", apiKey), ("q", city)] }

end weatherapi

/-! Concrete fixtures used by witnesses and counterexamples. -/

/-- A decoded ViaCEP payload for `01001-000` with the `erro` flag unset. -/
def addr0 : viacep.ViaCepResponse :=
  { Cep := "01001-000", Street := "Praça da Sé", City := "São Paulo",
    State := "SP", Erro := false }

/-- A decoded WeatherAPI payload: 25.5 °C / 77.9 °F, `erro` unset. -/
def weather0 : weatherapi.WeatherApiResponse :=
  { Current := { TempC := 25.5, TempF := 77.9 }, Erro := false }

/-- A decoded WeatherAPI payload with the `erro` flag SET. -/
def weatherErroTrue : weatherapi.WeatherApiResponse :=
  { Current := { TempC := 25.5, TempF := 77.9 }, Erro := true }

/-- An Address Resolver seam that always succeeds with `addr0`. -/
def viaCepOk : String → Except viacep.Error viacep.ViaCepResponse :=
  fun _ => .ok addr0

/-- An Address Resolver seam that always fails with `ErrCepNotFound`. -/
def viaCepNotFound : String → Except viacep.Error viacep.ViaCepResponse :=
  fun _ => .error .cepNotFound

/-- An Address Resolver seam that always fails with `ErrInternal`. -/
def viaCepInternal : String → Except viacep.Error viacep.ViaCepResponse :=
  fun _ => .error .internal

/-- A Weather Resolver seam that always succeeds with `weather0`. -/
def weatherOk : String → Except weatherapi.Error weatherapi.WeatherApiResponse :=
  fun _ => .ok weather0

/-- A Weather Resolver seam that always fails with `ErrCityNotFound`. -/
def weatherNotFound : String → Except weatherapi.Error weatherapi.WeatherApiResponse :=
  fun _ => .error .cityNotFound

/-- A unified response as the orchestrator composes it from `addr0` and
`weather0`. -/
def resp0 : Response :=
  { City := "São Paulo", TempC := 25.5, TempF := 77.9, TempK := 25.5 + 273.15 }

/-- An Edge downstream exchange: orchestrator 200 with `resp0`'s body. -/
def downstreamOk : app1.Downstream :=
  .reply 200 (.ok (encodeResponse resp0))

/-!
Theorems, one per claim.
-/

/-- C1: In both services, validation of the raw request rejects an empty
postal code with HTTP 400 (bad request), rejects a non-empty code not
matching `^[0-9]{5}-[0-9]{3}$` with HTTP 422 (unprocessable, distinct from
400), and lets every code matching the pattern pass to the post-validation
processing stage. -/
theorem validation_classes_both_services
    (cep : String) (downstream : app1.Downstream)
    (viaCepClient : String → Except viacep.Error viacep.ViaCepResponse)
    (weatherApiClient : String → Except weatherapi.Error weatherapi.WeatherApiResponse) :
    (cep = "" →
      app1.handler (.ok { Cep := cep }) downstream
        = { status := 400, body := .text "param 'cep' is required" } ∧
      (app2.handler cep viaCepClient weatherApiClient).1
        = { status := 400, body := .text "parâmetro 'cep' é obrigatório" }) ∧
    (cep ≠ "" → cepRegexMatch cep = false →
      app1.handler (.ok { Cep := cep }) downstream
        = { status := 422, body := .text "invalid zipcode" } ∧
      (app2.handler cep viaCepClient weatherApiClient).1
        = { status := 422, body := .text "inválid zipcode" }) ∧
    (cepRegexMatch cep = true →
      app1.handler (.ok { Cep := cep }) downstream = app1.forward downstream ∧
      app2.handler cep viaCepClient weatherApiClient
        = app2.handlerProcess cep viaCepClient weatherApiClient) := by
  refine ⟨?_, ?_, ?_⟩
  · rintro rfl
    exact ⟨rfl, rfl⟩
  · intro hne hno
    constructor
    · simp [app1.handler, hne, hno]
    · simp [app2.handler, hne, hno]
  · intro hyes
    have hne : cep ≠ "" := by
      intro he
      rw [he] at hyes
      exact absurd hyes (by decide)
    constructor
    · simp [app1.handler, hne, hyes]
    · simp [app2.handler, hne, hyes]

/-- C1 witness: concrete instances — empty code → 400 in the Edge and 400
in the Orchestrator; `"12345"` → 422 in both; `"01001-000"` matches and
reaches the processing stage in both. -/
theorem validation_classes_both_services_witness :
    (app1.handler (.ok { Cep := "" }) downstreamOk
        = { status := 400, body := .text "param 'cep' is required" } ∧
      (app2.handler "" viaCepOk weatherOk).1
        = { status := 400, body := .text "parâmetro 'cep' é obrigatório" }) ∧
    (app1.handler (.ok { Cep := "12345" }) downstreamOk
        = { status := 422, body := .text "invalid zipcode" } ∧
      (app2.handler "12345" viaCepOk weatherOk).1
        = { status := 422, body := .text "inválid zipcode" }) ∧
    (app1.handler (.ok { Cep := "01001-000" }) downstreamOk
        = app1.forward downstreamOk ∧
      app2.handler "01001-000" viaCepOk weatherOk
        = app2.handlerProcess "01001-000" viaCepOk weatherOk) :=
  ⟨(validation_classes_both_services "" downstreamOk viaCepOk weatherOk).1 rfl,
   (validation_classes_both_services "12345" downstreamOk viaCepOk weatherOk).2.1
     (by decide) (by decide),
   (validation_classes_both_services "01001-000" downstreamOk viaCepOk weatherOk).2.2
     (by decide)⟩

/-- C2: For a valid-shaped postal code, `FindAddressByCep` returns the
not-found error (`ErrCepNotFound`) both when the upstream status is
non-2xx (regardless of the body) and when the status is 2xx but the
decoded payload carries `erro = true`; the payload channel fires even at
status exactly 200, independently of the status channel. -/
theorem findAddressByCep_not_found_two_channels
    (statusCode : Nat) (body : Option viacep.ViaCepResponse)
    (data : viacep.ViaCepResponse) :
    (¬ (200 ≤ statusCode ∧ statusCode ≤ 299) →
      viacep.FindAddressByCep (.reply statusCode body) = .error .cepNotFound) ∧
    (200 ≤ statusCode ∧ statusCode ≤ 299 → data.Erro = true →
      viacep.FindAddressByCep (.reply statusCode (some data)) = .error .cepNotFound) := by
  constructor
  · intro hnot
    have hne : statusCode ≠ 200 := by
      intro he
      exact hnot (by omega)
    simp [viacep.FindAddressByCep, hne]
  · intro _ herr
    by_cases h200 : statusCode = 200
    · subst h200
      simp [viacep.FindAddressByCep, herr]
    · simp [viacep.FindAddressByCep, h200]

/-- C2 witness: a 404 reply and a 200 reply whose payload sets `erro`
both yield `ErrCepNotFound`. -/
theorem findAddressByCep_not_found_two_channels_witness :
    viacep.FindAddressByCep (.reply 404 none) = .error .cepNotFound ∧
    viacep.FindAddressByCep
        (.reply 200 (some { addr0 with Erro := true })) = .error .cepNotFound :=
  ⟨(findAddressByCep_not_found_two_channels 404 none addr0).1 (by decide),
   (findAddressByCep_not_found_two_channels 200 none { addr0 with Erro := true }).2
     (by decide) rfl⟩

/-- C10: `FindTemperatureByCity` decodes the `erro` field but never
inspects it: every 200 reply whose body decodes is returned as a success,
including payloads with `erro = true` — there is no payload-flag not-found
channel in the Weather Resolver, unlike the Address Resolver. -/
theorem findTemperatureByCity_ignores_erro_flag
    (data : weatherapi.WeatherApiResponse) :
    weatherapi.FindTemperatureByCity (.reply 200 (some data)) = .ok data ∧
    (data.Erro = true →
      weatherapi.FindTemperatureByCity (.reply 200 (some data)) = .ok data) := by
  exact ⟨rfl, fun _ => rfl⟩

/-- C10 witness: a 200 reply whose payload sets `erro = true` is still a
success carrying that payload. -/
theorem findTemperatureByCity_ignores_erro_flag_witness :
    weatherapi.FindTemperatureByCity (.reply 200 (some weatherErroTrue))
      = .ok weatherErroTrue :=
  (findTemperatureByCity_ignores_erro_flag weatherErroTrue).2 rfl

/-- C3: For a validated postal code, the orchestrator handler maps an
Address Resolver `ErrCepNotFound` to an outward 404; any other Address
Resolver error, and every Weather Resolver error (its `ErrCityNotFound`
included), to an outward 500 whose body is exactly the fixed
`InternalErrorMessage`, never the cause's own text. -/
theorem orchestrator_error_translation
    (cep : String) (hcep : cepRegexMatch cep = true)
    (viaCepClient : String → Except viacep.Error viacep.ViaCepResponse)
    (weatherApiClient : String → Except weatherapi.Error weatherapi.WeatherApiResponse) :
    (viaCepClient cep = .error .cepNotFound →
      (app2.handler cep viaCepClient weatherApiClient).1
        = { status := 404, body := .text app2.errCepNotFoundMessage }) ∧
    (∀ e, viaCepClient cep = .error e → e ≠ viacep.Error.cepNotFound →
      (app2.handler cep viaCepClient weatherApiClient).1
        = { status := 500, body := .text app2.InternalErrorMessage }) ∧
    (∀ address e, viaCepClient cep = .ok address →
      weatherApiClient address.City = .error e →
      (app2.handler cep viaCepClient weatherApiClient).1
        = { status := 500, body := .text app2.InternalErrorMessage }) := by
  have hne : cep ≠ "" := by
    intro he
    rw [he] at hcep
    exact absurd hcep (by decide)
  refine ⟨?_, ?_, ?_⟩
  · intro hv
    simp [app2.handler, app2.handlerProcess, hne, hcep, hv]
  · intro e hv henf
    simp [app2.handler, app2.handlerProcess, hne, hcep, hv, henf]
  · intro address e hv hw
    simp [app2.handler, app2.handlerProcess, hne, hcep, hv, hw]

/-- C3 witness: at `"01001-000"`, an `ErrCepNotFound` address seam yields
404; an `ErrInternal` address seam yields 500 with the generic message; a
successful address with an `ErrCityNotFound` weather seam also yields 500
with the generic message. -/
theorem orchestrator_error_translation_witness :
    (app2.handler "01001-000" viaCepNotFound weatherOk).1
      = { status := 404, body := .text app2.errCepNotFoundMessage } ∧
    (app2.handler "01001-000" viaCepInternal weatherOk).1
      = { status := 500, body := .text app2.InternalErrorMessage } ∧
    (app2.handler "01001-000" viaCepOk weatherNotFound).1
      = { status := 500, body := .text app2.InternalErrorMessage } :=
  ⟨(orchestrator_error_translation "01001-000" (by decide) viaCepNotFound weatherOk).1
     rfl,
   (orchestrator_error_translation "01001-000" (by decide) viaCepInternal weatherOk).2.1
     .internal rfl (by decide),
   (orchestrator_error_translation "01001-000" (by decide) viaCepOk weatherNotFound).2.2
     addr0 .cityNotFound rfl rfl⟩

/-- C5: Every successful (status 200) unified response the orchestrator
handler produces has its Kelvin field equal to its Celsius field plus
exactly 273.15. -/
theorem kelvin_is_celsius_plus_273_15
    (cep : String)
    (viaCepClient : String → Except viacep.Error viacep.ViaCepResponse)
    (weatherApiClient : String → Except weatherapi.Error weatherapi.WeatherApiResponse)
    (r : Response) (evs : List app2.Event)
    (h : app2.handler cep viaCepClient weatherApiClient
          = ({ status := 200, body := .json (encodeResponse r) }, evs)) :
    r.TempK = r.TempC + 273.15 := by
  unfold app2.handler app2.handlerProcess at h
  split at h
  · simp [Prod.ext_iff] at h
  · split at h
    · simp [Prod.ext_iff] at h
    · split at h
      · split at h <;> simp [Prod.ext_iff] at h
      · split at h
        · simp [Prod.ext_iff] at h
        · simp only [Prod.ext_iff, HttpResponse.mk.injEq, encodeResponse,
            HttpBody.json.injEq, Json.obj.injEq, List.cons.injEq,
            Prod.mk.injEq, Json.str.injEq, Json.num.injEq] at h
          obtain ⟨⟨_, _, ⟨_, htc⟩, _, ⟨_, htk⟩, _⟩, _⟩ := h
          rw [← htk, ← htc]

/-- C5 witness: with the address seam resolving São Paulo and the weather
seam returning 25.5 °C, the produced response satisfies
TempK = TempC + 273.15, and that value is 298.65 (exactly, hence within
any tolerance such as 1e-9). -/
theorem kelvin_is_celsius_plus_273_15_witness :
    resp0.TempK = resp0.TempC + 273.15 ∧ resp0.TempK = 298.65 ∧
    |resp0.TempK - 298.65| ≤ 1e-9 :=
  ⟨kelvin_is_celsius_plus_273_15 "01001-000" viaCepOk weatherOk resp0
     [.calledFindAddressByCep "01001-000", .calledFindTemperatureByCity "São Paulo"]
     rfl,
   by norm_num [resp0],
   by norm_num [resp0]⟩

/-- C6 counterexample: a reply with status 201 — a 2xx status — whose
payload decodes and has the not-found flag unset is NOT returned as an
Address value: `FindAddressByCep` returns `ErrCepNotFound`, because the
code accepts only status exactly 200. -/
theorem findAddressByCep_201_not_success :
    viacep.FindAddressByCep (.reply 201 (some addr0)) = .error .cepNotFound ∧
    viacep.FindAddressByCep (.reply 201 (some addr0)) ≠ .ok addr0 := by
  exact ⟨rfl, by simp [viacep.FindAddressByCep]⟩

/-- C6 (amended): For every upstream reply whose HTTP status is exactly
200, whose payload decodes successfully, and whose not-found flag is
false, `FindAddressByCep` returns the Address value rather than any
error. -/
theorem findAddressByCep_200_success
    (data : viacep.ViaCepResponse) (h : data.Erro = false) :
    viacep.FindAddressByCep (.reply 200 (some data)) = .ok data := by
  simp [viacep.FindAddressByCep, h]

/-- C6 witness: the 200 reply carrying `addr0` (flag unset) succeeds with
`addr0`. -/
theorem findAddressByCep_200_success_witness :
    viacep.FindAddressByCep (.reply 200 (some addr0)) = .ok addr0 :=
  findAddressByCep_200_success addr0 rfl

/-- C7: With a validated postal code, the edge handler translates a
downstream 404 into its own 404 "can not find zipcode"; any other
downstream status ≥ 400 into a response with that status and the fixed
upstream-error message; and a transport/timeout failure of the
Edge → Orchestrator call into a 500 (internal error) response. -/
theorem edge_downstream_status_translation
    (req : app1.Request) (h : cepRegexMatch req.Cep = true) :
    (∀ body, app1.handler (.ok req) (.reply 404 body)
        = { status := 404, body := .text "can not find zipcode" }) ∧
    (∀ statusCode body, 400 ≤ statusCode → statusCode ≠ 404 →
      app1.handler (.ok req) (.reply statusCode body)
        = { status := statusCode,
            body := .text "error on find weather in orchestrator service" }) ∧
    (∀ errText, (app1.handler (.ok req) (.transportError errText)).status = 500) := by
  have hne : req.Cep ≠ "" := by
    intro he
    rw [he] at h
    exact absurd h (by decide)
  refine ⟨?_, ?_, ?_⟩
  · intro body
    simp [app1.handler, app1.forward, hne, h]
  · intro statusCode body hge h404
    simp [app1.handler, app1.forward, hne, h, h404, hge]
  · intro errText
    simp [app1.handler, app1.forward, hne, h]

/-- C7 witness: at request `"01001-000"`, a downstream 404 gives the edge
404; a downstream 502 gives status 502 with the fixed upstream-error
message; a transport failure gives status 500. -/
theorem edge_downstream_status_translation_witness :
    app1.handler (.ok { Cep := "01001-000" }) (.reply 404 (.error "x"))
      = { status := 404, body := .text "can not find zipcode" } ∧
    app1.handler (.ok { Cep := "01001-000" }) (.reply 502 (.error "x"))
      = { status := 502,
          body := .text "error on find weather in orchestrator service" } ∧
    (app1.handler (.ok { Cep := "01001-000" })
        (.transportError "context deadline exceeded")).status = 500 :=
  ⟨(edge_downstream_status_translation { Cep := "01001-000" } (by decide)).1
     (.error "x"),
   (edge_downstream_status_translation { Cep := "01001-000" } (by decide)).2.1
     502 (.error "x") (by decide) (by decide),
   (edge_downstream_status_translation { Cep := "01001-000" } (by decide)).2.2
     "context deadline exceeded"⟩

/-- C8: Decoding a `Response` from its own encoding is the identity, so
for every success body the Orchestrator can produce (an encoded
`Response`), the edge handler's decode-then-re-encode pipeline emits
exactly the JSON body it received, with status 200. -/
theorem edge_success_body_roundtrip
    (req : app1.Request) (h : cepRegexMatch req.Cep = true) (r : Response) :
    decodeResponse (encodeResponse r) = some r ∧
    app1.handler (.ok req) (.reply 200 (.ok (encodeResponse r)))
      = { status := 200, body := .json (encodeResponse r) } := by
  have hne : req.Cep ≠ "" := by
    intro he
    rw [he] at h
    exact absurd h (by decide)
  have hrt : decodeResponse (encodeResponse r) = some r := rfl
  refine ⟨hrt, ?_⟩
  simp [app1.handler, app1.forward, hne, h, hrt]

/-- C8 witness: the edge re-emits `resp0`'s encoded body unchanged on a
downstream 200. -/
theorem edge_success_body_roundtrip_witness :
    decodeResponse (encodeResponse resp0) = some resp0 ∧
    app1.handler (.ok { Cep := "01001-000" }) (.reply 200 (.ok (encodeResponse resp0)))
      = { status := 200, body := .json (encodeResponse resp0) } :=
  edge_success_body_roundtrip { Cep := "01001-000" } (by decide) resp0

/-- C4: For every Weather Resolver outbound request with a non-empty
credential, the redacting transport (i) forwards the original, unredacted
request to the base transport, (ii) records as span attributes exactly the
URL with the credential replaced by the mask token `"***"`, and (iii) is
non-interferent in the credential: two requests differing only in the
(non-empty) API key produce identical recorded attributes, so no recorded
attribute carries the literal key value. -/
theorem weather_span_redaction
    (baseURL apiKey city : String) (hk : apiKey ≠ "") :
    (weatherapi.redactingRoundTrip
        (weatherapi.weatherRequestURL baseURL apiKey city)).2
      = weatherapi.weatherRequestURL baseURL apiKey city ∧
    (weatherapi.redactingRoundTrip
        (weatherapi.weatherRequestURL baseURL apiKey city)).1
      = [("http.url", weatherapi.urlString
            { base := baseURL ++ "/current.json",
              query := [("key", weatherapi.maskToken), ("q", city)] }),
         ("url.full", weatherapi.urlString
            { base := baseURL ++ "/current.json",
              query := [("key", weatherapi.maskToken), ("q", city)] })] ∧
    (∀ apiKey2, apiKey2 ≠ "" →
      (weatherapi.redactingRoundTrip
          (weatherapi.weatherRequestURL baseURL apiKey2 city)).1
        = (weatherapi.redactingRoundTrip
            (weatherapi.weatherRequestURL baseURL apiKey city)).1) := by
  refine ⟨?_, ?_, ?_⟩
  · simp only [weatherapi.redactingRoundTrip]
    split <;> rfl
  · simp [weatherapi.redactingRoundTrip, weatherapi.weatherRequestURL,
      weatherapi.valuesGet, weatherapi.valuesSet, hk]
  · intro apiKey2 hk2
    simp [weatherapi.redactingRoundTrip, weatherapi.weatherRequestURL,
      weatherapi.valuesGet, weatherapi.valuesSet, hk, hk2]

/-- C4 witness: at the real base URL with a concrete secret and city, the
forwarded request is the original, and swapping the secret for a different
one leaves the recorded attributes identical. -/
theorem weather_span_redaction_witness :
    (weatherapi.redactingRoundTrip
        (weatherapi.weatherRequestURL "https://api.weatherapi.com/v1"
          "secret-key-123" "São Paulo")).2
      = weatherapi.weatherRequestURL "https://api.weatherapi.com/v1"
          "secret-key-123" "São Paulo" ∧
    (weatherapi.redactingRoundTrip
        (weatherapi.weatherRequestURL "https://api.weatherapi.com/v1"
          "another-key" "São Paulo")).1
      = (weatherapi.redactingRoundTrip
          (weatherapi.weatherRequestURL "https://api.weatherapi.com/v1"
            "secret-key-123" "São Paulo")).1 :=
  ⟨(weather_span_redaction "https://api.weatherapi.com/v1" "secret-key-123"
      "São Paulo" (by decide)).1,
   (weather_span_redaction "https://api.weatherapi.com/v1" "secret-key-123"
      "São Paulo" (by decide)).2.2 "another-key" (by decide)⟩

/-- C9: Within one orchestrator request the two downstream resolutions are
strictly sequential and fail-fast: when validation rejects the code the
handler performs no downstream call at all; when the Address Resolver
errors the Weather Resolver is never invoked; and whenever the Weather
Resolver is invoked, its argument is exactly the `City` field of the
address just resolved, with the address call strictly first. -/
theorem orchestrator_sequential_fail_fast
    (cep : String)
    (viaCepClient : String → Except viacep.Error viacep.ViaCepResponse)
    (weatherApiClient : String → Except weatherapi.Error weatherapi.WeatherApiResponse) :
    (cep = "" ∨ cepRegexMatch cep = false →
      (app2.handler cep viaCepClient weatherApiClient).2 = []) ∧
    (∀ e, viaCepClient cep = .error e → ∀ city,
      app2.Event.calledFindTemperatureByCity city
        ∉ (app2.handler cep viaCepClient weatherApiClient).2) ∧
    (∀ city,
      app2.Event.calledFindTemperatureByCity city
          ∈ (app2.handler cep viaCepClient weatherApiClient).2 →
      ∃ address, viaCepClient cep = .ok address ∧ city = address.City ∧
        (app2.handler cep viaCepClient weatherApiClient).2
          = [.calledFindAddressByCep cep,
             .calledFindTemperatureByCity address.City]) := by
  refine ⟨?_, ?_, ?_⟩
  · rintro (hemp | hno)
    · simp [app2.handler, hemp]
    · by_cases hemp : cep = ""
      · simp [app2.handler, hemp]
      · simp [app2.handler, hemp, hno]
  · intro e hv city
    by_cases hemp : cep = ""
    · simp [app2.handler, hemp]
    · cases hm : cepRegexMatch cep
      · simp [app2.handler, hemp, hm]
      · by_cases he : e = viacep.Error.cepNotFound <;>
          simp [app2.handler, app2.handlerProcess, hemp, hm, hv, he]
  · intro city hmem
    by_cases hemp : cep = ""
    · simp [app2.handler, hemp] at hmem
    · cases hm : cepRegexMatch cep
      · simp [app2.handler, hemp, hm] at hmem
      · cases hv : viaCepClient cep with
        | error e =>
            by_cases he : e = viacep.Error.cepNotFound <;>
              simp [app2.handler, app2.handlerProcess, hemp, hm, hv, he] at hmem
        | ok address =>
            cases hw : weatherApiClient address.City with
            | error e2 =>
                simp [app2.handler, app2.handlerProcess, hemp, hm, hv, hw] at hmem
                exact ⟨address, rfl, hmem, by
                  simp [app2.handler, app2.handlerProcess, hemp, hm, hv, hw]⟩
            | ok weather =>
                simp [app2.handler, app2.handlerProcess, hemp, hm, hv, hw] at hmem
                exact ⟨address, rfl, hmem, by
                  simp [app2.handler, app2.handlerProcess, hemp, hm, hv, hw]⟩

/-- C9 witness: an empty code and a malformed code produce no downstream
calls; with a failing address seam the weather call never appears in the
event list. -/
theorem orchestrator_sequential_fail_fast_witness :
    (app2.handler "" viaCepOk weatherOk).2 = [] ∧
    (app2.handler "12345" viaCepOk weatherOk).2 = [] ∧
    app2.Event.calledFindTemperatureByCity "São Paulo"
      ∉ (app2.handler "01001-000" viaCepInternal weatherOk).2 :=
  ⟨(orchestrator_sequential_fail_fast "" viaCepOk weatherOk).1 (Or.inl rfl),
   (orchestrator_sequential_fail_fast "12345" viaCepOk weatherOk).1
     (Or.inr (by decide)),
   (orchestrator_sequential_fail_fast "01001-000" viaCepInternal weatherOk).2.1
     .internal rfl "São Paulo"⟩
